import Mathlib

/-
Verification of the FastAPI demo service in app/main.py.

The service has five GET routes (`/`, `/health`, `/ready`, `/api/items`,
`/api/status`) whose handlers return hardcoded JSON mappings (two of them
read the ENVIRONMENT process variable via os.getenv with default
"development"), and an HTTP middleware that wraps every request, measures
wall-clock duration, appends one timing log line after the downstream
handler has returned, and passes the response through unchanged.

Embedding choices:
- JSON values are a `Json` inductive; serialization follows the compact
  separators FastAPI's JSONResponse uses (`,` and `:`); the string
  literals occurring in this program need no JSON escaping.
- The process environment is an association list of variable names to
  string values; `os_getenv` mirrors Python's os.getenv(key, default):
  the default applies only when the key is absent.
- Wall-clock readings are rationals; the middleware receives the two
  readings (start before the downstream call, end after) as parameters.
  `fmt3` renders a duration to three decimal places as Python's
  `f"{d:.3f}"` does for the exactly-representable values used here.
- HTTP status 200 comes from FastAPI's default response for a handler
  returning a dict.
-/

namespace FastApiDemo

/-- JSON values: strings, integers, arrays and objects (objects keep the
insertion order of their keys, as Python dicts do). -/
inductive Json where
  | str : String → Json
  | num : Int → Json
  | arr : List Json → Json
  | obj : List (String × Json) → Json

mutual

/-- Compact JSON serialization, matching FastAPI's JSONResponse
(json.dumps with separators `,` and `:`). The strings appearing in this
service contain no characters that need escaping. -/
def Json.serialize : Json → String
  | .str s => "\"" ++ s ++ "\""
  | .num n => toString n
  | .arr xs => "[" ++ Json.serializeArr xs ++ "]"
  | .obj kvs => "\x7b" ++ Json.serializeObj kvs ++ "\x7d"

/-- Serialize the elements of a JSON array, comma separated. -/
def Json.serializeArr : List Json → String
  | [] => ""
  | [x] => Json.serialize x
  | x :: y :: xs => Json.serialize x ++ "," ++ Json.serializeArr (y :: xs)

/-- Serialize the key-value pairs of a JSON object, comma separated. -/
def Json.serializeObj : List (String × Json) → String
  | [] => ""
  | [(k, v)] => "\"" ++ k ++ "\":" ++ Json.serialize v
  | (k, v) :: kv :: kvs =>
      "\"" ++ k ++ "\":" ++ Json.serialize v ++ "," ++ Json.serializeObj (kv :: kvs)

end

/-- Look up a key among the fields of a JSON object (first match wins). -/
def lookupField : List (String × Json) → String → Option Json
  | [], _ => none
  | (k, v) :: kvs, key => if k = key then some v else lookupField kvs key

/-- Field access on a JSON value: `some` field value on an object that has
the key, `none` otherwise. -/
def Json.getField : Json → String → Option Json
  | .obj kvs, key => lookupField kvs key
  | _, _ => none

/-- The process environment: an association of variable names to values.
A variable set to the empty string is present with value `""`; an absent
variable has no entry. -/
abbrev Environ := List (String × String)

/-- Python's os.getenv(key, dflt): the variable's value when the key is
present (even if the value is the empty string), `dflt` when absent. -/
def os_getenv (environ : Environ) (key dflt : String) : String :=
  match environ.lookup key with
  | some v => v
  | none => dflt

/-- What a route handler produces: a JSON body (FastAPI serializes the
returned dict) together with the info-level log lines the handler emits. -/
structure HandlerResult where
  body : Json
  logs : List String

/-- Handler of `GET /` (app/main.py, `root`): logs "Root endpoint
accessed" and returns the welcome mapping, reading ENVIRONMENT with
default "development". -/
def root (environ : Environ) : HandlerResult where
  body := Json.obj
    [("message", Json.str "Welcome to FastAPI GitOps Demo"),
     ("version", Json.str "1.0.0"),
     ("environment", Json.str (os_getenv environ "ENVIRONMENT" "development"))]
  logs := ["Root endpoint accessed"]

/-- Handler of `GET /health` (app/main.py, `health`): constant body, no
logging, no environment read. -/
def health : HandlerResult where
  body := Json.obj [("status", Json.str "healthy"), ("service", Json.str "fastapi-demo")]
  logs := []

/-- Handler of `GET /ready` (app/main.py, `ready`): constant body, no
logging, no environment read. -/
def ready : HandlerResult where
  body := Json.obj [("status", Json.str "ready"), ("service", Json.str "fastapi-demo")]
  logs := []

/-- Handler of `GET /api/items` (app/main.py, `get_items`): logs "Items
endpoint accessed" and returns the three fixed demo items. -/
def get_items : HandlerResult where
  body := Json.obj
    [("items", Json.arr
      [Json.obj [("id", Json.num 1), ("name", Json.str "Item 1"),
                 ("description", Json.str "First item")],
       Json.obj [("id", Json.num 2), ("name", Json.str "Item 2"),
                 ("description", Json.str "Second item")],
       Json.obj [("id", Json.num 3), ("name", Json.str "Item 3"),
                 ("description", Json.str "Third item")]])]
  logs := ["Items endpoint accessed"]

/-- Handler of `GET /api/status` (app/main.py, `status`): no logging,
returns the status mapping, reading ENVIRONMENT with default
"development". -/
def status (environ : Environ) : HandlerResult where
  body := Json.obj
    [("app", Json.str "fastapi-demo"),
     ("version", Json.str "1.0.0"),
     ("status", Json.str "running"),
     ("environment", Json.str (os_getenv environ "ENVIRONMENT" "development"))]
  logs := []

/-- The five routes the app binds (app/main.py, the `@app.get`
decorators). -/
inductive Route where
  | root
  | health
  | ready
  | items
  | apiStatus
deriving DecidableEq, Repr

/-- The URL path of each route. -/
def Route.path : Route → String
  | .root => "/"
  | .health => "/health"
  | .ready => "/ready"
  | .items => "/api/items"
  | .apiStatus => "/api/status"

/-- Every route is bound with `@app.get`, so the matched method is GET. -/
def Route.method (_ : Route) : String := "GET"

/-- Routing: dispatch a matched route to its handler. Only `root` and
`status` receive the process environment; the other handlers read
nothing. -/
def handle (environ : Environ) : Route → HandlerResult
  | .root => root environ
  | .health => health
  | .ready => ready
  | .items => get_items
  | .apiStatus => status environ

/-- An HTTP response: status code and JSON body. -/
structure Response where
  status_code : Nat
  body : Json

/-- The application seen by the middleware as `call_next`: routing plus
FastAPI's default conversion of a returned dict into a 200 JSON response.
The second component is the log lines the handler emitted. -/
def app (environ : Environ) (r : Route) : Response × List String :=
  ({ status_code := 200, body := (handle environ r).body }, (handle environ r).logs)

/-- Left-pad the fractional milliseconds part to three digits. -/
def pad3 (n : Nat) : String :=
  if n < 10 then "00" ++ toString n
  else if n < 100 then "0" ++ toString n
  else toString n

/-- Fixed-point rendering of a duration in seconds to three decimal
places, as Python's `f"{d:.3f}"` produces (rounding to the nearest
thousandth). -/
def fmt3 (d : ℚ) : String :=
  let ms : Int := round (d * 1000)
  let sign := if ms < 0 then "-" else ""
  let a := ms.natAbs
  sign ++ toString (a / 1000) ++ "." ++ pad3 (a % 1000)

/-- The timing log line the middleware emits (app/main.py line 27):
`f"{method} {path} - {status_code} - {duration:.3f}s"`. -/
def timingLine (method path : String) (status_code : Nat) (duration : ℚ) : String :=
  method ++ " " ++ path ++ " - " ++ toString status_code ++ " - " ++ fmt3 duration ++ "s"

/-- The HTTP middleware (app/main.py, `logging_middleware`): records the
clock before calling `call_next`, reads it again after the response is
obtained, appends one timing log line after whatever the downstream
handler logged, and returns the downstream response unchanged.
`start_time` and `end_time` are the two wall-clock readings. -/
def logging_middleware (request : Route) (call_next : Route → Response × List String)
    (start_time end_time : ℚ) : Response × List String :=
  let method := request.method
  let path := request.path
  let result := call_next request
  let response := result.1
  let duration := end_time - start_time
  let status_code := response.status_code
  (response, result.2 ++ [timingLine method path status_code duration])

/-- One full request/response cycle: the middleware wrapping the routed
application. Returns the response and all log lines emitted for this
request, in emission order. -/
def processRequest (environ : Environ) (r : Route) (start_time end_time : ℚ) :
    Response × List String :=
  logging_middleware r (app environ) start_time end_time

/-- The server's only mutable state is the stream of emitted log lines.
One step serves a request under the environment current at that moment
and appends the request's log lines to the stream. -/
def serverStep (s : List String) (environ : Environ) (r : Route)
    (start_time end_time : ℚ) : List String × Response :=
  let result := processRequest environ r start_time end_time
  (s ++ result.2, result.1)

/-- Claim C1: every GET /api/items response body is exactly the object
with the three items of ids 1, 2, 3 and names/descriptions "Item 1"/"First
item", "Item 2"/"Second item", "Item 3"/"Third item", in that order,
whatever the process environment is. -/
theorem get_items_returns_three_fixed_items (environ : Environ) :
    (handle environ Route.items).body =
      Json.obj
        [("items", Json.arr
          [Json.obj [("id", Json.num 1), ("name", Json.str "Item 1"),
                     ("description", Json.str "First item")],
           Json.obj [("id", Json.num 2), ("name", Json.str "Item 2"),
                     ("description", Json.str "Second item")],
           Json.obj [("id", Json.num 3), ("name", Json.str "Item 3"),
                     ("description", Json.str "Third item")]])] := rfl

/-- Claim C2: GET / returns environment "development" when ENVIRONMENT is
absent from the process environment, and the variable's value (for
example "staging") when it is set. -/
theorem root_environment_field (e1 e2 : Environ) (v : String)
    (h1 : e1.lookup "ENVIRONMENT" = none)
    (h2 : e2.lookup "ENVIRONMENT" = some v) :
    (handle e1 Route.root).body.getField "environment" =
      some (Json.str "development") ∧
    (handle e2 Route.root).body.getField "environment" = some (Json.str v) := by
  constructor <;>
    simp [handle, root, Json.getField, lookupField, os_getenv, h1, h2]

/-- Witness for C2 at the concrete environments of the spec: no variable
set, and ENVIRONMENT=staging. -/
theorem root_environment_field_witness :
    ([] : Environ).lookup "ENVIRONMENT" = none ∧
    ([("ENVIRONMENT", "staging")] : Environ).lookup "ENVIRONMENT" = some "staging" ∧
    ((handle [] Route.root).body.getField "environment" =
        some (Json.str "development") ∧
     (handle [("ENVIRONMENT", "staging")] Route.root).body.getField "environment" =
        some (Json.str "staging")) :=
  ⟨rfl, rfl,
    root_environment_field [] [("ENVIRONMENT", "staging")] "staging" rfl rfl⟩

/-- Claim C3: the logging middleware returns to the client exactly the
response of the downstream handler, for any downstream handler and any
clock readings: no field of the response is modified. -/
theorem logging_middleware_preserves_response (request : Route)
    (call_next : Route → Response × List String) (start_time end_time : ℚ) :
    (logging_middleware request call_next start_time end_time).1 =
      (call_next request).1 := rfl

/-- Claim C4: each request emits exactly one timing log line, of the form
`method path - status - duration.3fs`, appended after all log lines of the
downstream handler; no handler log line even contains the character '-',
so the appended line is the only one of that form. -/
theorem middleware_emits_one_timing_line (environ : Environ) (r : Route)
    (start_time end_time : ℚ) :
    (processRequest environ r start_time end_time).2 =
      (handle environ r).logs ++
        [r.method ++ " " ++ r.path ++ " - " ++
          toString (processRequest environ r start_time end_time).1.status_code ++
          " - " ++ fmt3 (end_time - start_time) ++ "s"] ∧
    ∀ l ∈ (handle environ r).logs, Char.ofNat 45 ∉ l.data := by
  refine ⟨rfl, ?_⟩
  cases r <;> simp [handle, root, health, ready, get_items, status]

/-- Claim C5: whenever the clock does not run backwards between the two
readings, the duration in the (single, final) timing log line is
`end_time - start_time` and is nonnegative. -/
theorem logged_duration_nonneg (environ : Environ) (r : Route)
    (start_time end_time : ℚ) (h : start_time ≤ end_time) :
    (processRequest environ r start_time end_time).2.getLast? =
      some (timingLine r.method r.path 200 (end_time - start_time)) ∧
    0 ≤ end_time - start_time := by
  constructor
  · simp [processRequest, logging_middleware, app]
  · linarith

/-- Witness for C5 at a concrete request: route /, empty environment,
clock readings 0 and 1. -/
theorem logged_duration_nonneg_witness :
    (0 : ℚ) ≤ 1 ∧
    ((processRequest [] Route.root 0 1).2.getLast? =
        some (timingLine Route.root.method Route.root.path 200 (1 - 0)) ∧
     (0 : ℚ) ≤ 1 - 0) :=
  ⟨by norm_num, logged_duration_nonneg [] Route.root 0 1 (by norm_num)⟩

/-- Claim C6: the GET /health response body is the constant mapping
with status "healthy" and service "fastapi-demo", for every state of the
process environment. -/
theorem health_constant_body (environ : Environ) :
    (handle environ Route.health).body =
      Json.obj [("status", Json.str "healthy"),
                ("service", Json.str "fastapi-demo")] := rfl

/-- Claim C7: ENVIRONMENT is read anew on each request: serving / or
/api/status first under environment e1 and then under e2 yields a first
response whose environment field reflects e1 and a second response
reflecting e2, whatever log state the server has accumulated. -/
theorem environment_read_per_request (s : List String) (e1 e2 : Environ)
    (r : Route) (t0 t1 t2 t3 : ℚ)
    (h : r = Route.root ∨ r = Route.apiStatus) :
    (serverStep s e1 r t0 t1).2.body.getField "environment" =
      some (Json.str (os_getenv e1 "ENVIRONMENT" "development")) ∧
    (serverStep (serverStep s e1 r t0 t1).1 e2 r t2 t3).2.body.getField
        "environment" =
      some (Json.str (os_getenv e2 "ENVIRONMENT" "development")) := by
  rcases h with h | h <;> subst h <;> constructor <;>
    simp [serverStep, processRequest, logging_middleware, app, handle, root,
      status, Json.getField, lookupField]

/-- Witness for C7: first request with no variable set, second request
after ENVIRONMENT changed to "staging"; the later response reflects the
new value. -/
theorem environment_read_per_request_witness :
    (Route.root = Route.root ∨ Route.root = Route.apiStatus) ∧
    ((serverStep [] [] Route.root 0 1).2.body.getField "environment" =
        some (Json.str (os_getenv [] "ENVIRONMENT" "development")) ∧
     (serverStep (serverStep [] [] Route.root 0 1).1 [("ENVIRONMENT", "staging")]
          Route.root 2 3).2.body.getField "environment" =
        some (Json.str (os_getenv [("ENVIRONMENT", "staging")] "ENVIRONMENT"
          "development"))) :=
  ⟨Or.inl rfl,
    environment_read_per_request [] [] [("ENVIRONMENT", "staging")] Route.root
      0 1 2 3 (Or.inl rfl)⟩

/-- Claim C8: two identical requests to the same route under the same
environment give byte-identical serialized JSON bodies and the same
status code, independently of the server's accumulated log state and of
the clock readings: no handler reads or writes hidden mutable state. -/
theorem repeated_requests_byte_identical (s1 s2 : List String)
    (environ : Environ) (r : Route) (t0 t1 t2 t3 : ℚ) :
    Json.serialize (serverStep s1 environ r t0 t1).2.body =
      Json.serialize (serverStep s2 environ r t2 t3).2.body ∧
    (serverStep s1 environ r t0 t1).2.status_code =
      (serverStep s2 environ r t2 t3).2.status_code := ⟨rfl, rfl⟩

/-- Claim C9: every request to any of the five routes gets HTTP status
200, and each route's body has the exact shape of §4.2; in particular
/api/status returns the app/version/status/environment mapping. -/
theorem all_routes_200_with_spec_bodies (environ : Environ) (r : Route)
    (t0 t1 : ℚ) :
    (processRequest environ r t0 t1).1.status_code = 200 ∧
    (processRequest environ Route.apiStatus t0 t1).1.body =
      Json.obj [("app", Json.str "fastapi-demo"),
                ("version", Json.str "1.0.0"),
                ("status", Json.str "running"),
                ("environment",
                  Json.str (os_getenv environ "ENVIRONMENT" "development"))] ∧
    (processRequest environ Route.root t0 t1).1.body =
      Json.obj [("message", Json.str "Welcome to FastAPI GitOps Demo"),
                ("version", Json.str "1.0.0"),
                ("environment",
                  Json.str (os_getenv environ "ENVIRONMENT" "development"))] ∧
    (processRequest environ Route.health t0 t1).1.body =
      Json.obj [("status", Json.str "healthy"),
                ("service", Json.str "fastapi-demo")] ∧
    (processRequest environ Route.ready t0 t1).1.body =
      Json.obj [("status", Json.str "ready"),
                ("service", Json.str "fastapi-demo")] ∧
    (processRequest environ Route.items t0 t1).1.body =
      (handle environ Route.items).body :=
  ⟨rfl, rfl, rfl, rfl, rfl, rfl⟩

/-- Claim C10: with ENVIRONMENT set to the empty string, GET / and GET
/api/status return environment "" — the "development" default applies
only when the variable is absent, not when it is set but empty. -/
theorem empty_string_environment :
    (handle [("ENVIRONMENT", "")] Route.root).body.getField "environment" =
      some (Json.str "") ∧
    (handle [("ENVIRONMENT", "")] Route.apiStatus).body.getField
        "environment" =
      some (Json.str "") ∧
    (handle [] Route.root).body.getField "environment" =
      some (Json.str "development") := ⟨rfl, rfl, rfl⟩

end FastApiDemo
